import Mathlib

/-
Verification development for the NSRL-CAID-to-UCO converter
(src/nsrl_to_uco.py).  The graph-assembly engine is shallowly embedded:
Python dicts become association-list JSON values, the uuid/identifier
cache (`NSRLConverter.uuids`) becomes an explicit `Registry` state, and
the random `uuid.uuid4()` draws become an abstract stream `supply :
Nat -> String` consumed in order.  Wall-clock timestamps are likewise
parameters (`now`, respectively a per-unit stream `times`).

The methods `_create_bundle`, `_create_constant_objects`,
`_create_file_facet`, `_create_content_data_facet` and
`_generate_tool_id` in the source are never invoked by `process_file`
or `process_input`; they are dead code and are not embedded.
-/

namespace NsrlUco

/-- JSON-like values: the shape of the Python dicts/lists built by
`process_file`.  Objects are association lists in insertion order. -/
inductive JValue where
  | str (s : String)
  | int (n : Int)
  | bool (b : Bool)
  | arr (elems : List JValue)
  | obj (fields : List (String × JValue))

/-- First-match association lookup, the meaning of `d[k]` on the
(duplicate-free) dict literals built by the converter. -/
def findField : List (String × JValue) → String → Option JValue
  | [], _ => none
  | (k, v) :: rest, key => if k = key then some v else findField rest key

/-- Field access on a JSON object; `none` on non-objects or absent keys. -/
def JValue.field : JValue → String → Option JValue
  | .obj fs, key => findField fs key
  | .str _, _ => none
  | .int _, _ => none
  | .bool _, _ => none
  | .arr _, _ => none

/-- The node identifier: the string under the top-level key `@id`. -/
def JValue.idOf (n : JValue) : Option String :=
  match n.field "@id" with
  | some (.str s) => some s
  | _ => none

/-- The node kind: the string under the top-level key `@type`. -/
def JValue.typeOf (n : JValue) : Option String :=
  match n.field "@type" with
  | some (.str s) => some s
  | _ => none

/-- Whether a node carries a given top-level attribute key at all. -/
def JValue.hasField (n : JValue) (key : String) : Bool :=
  (n.field key).isSome

/-- Whether a node is tagged with the given `@type`. -/
def JValue.isType (n : JValue) (t : String) : Bool :=
  n.typeOf == some t

/-- A string-valued top-level attribute. -/
def strField (n : JValue) (key : String) : Option String :=
  match n.field key with
  | some (.str s) => some s
  | _ => none

/-- Length of an array-valued field (0 when absent or not an array). -/
def arrLen : Option JValue → Nat
  | some (.arr xs) => xs.length
  | _ => 0

/-- Python str.upper of nsrl_to_uco.py:464, modelled character-wise over
the string's character list (the source applies it to hex digests). -/
def pyUpper (s : String) : String :=
  String.mk (s.data.map Char.toUpper)

/-- The `uco-types:hashValue/@value` string of a Hash node. -/
def hashValOf (n : JValue) : Option String :=
  match n.field "uco-types:hashValue" with
  | some hv =>
    match hv.field "@value" with
    | some (.str s) => some s
    | _ => none
  | none => none

/-- All `@id` strings of the nodes of a graph, in order. -/
def nodeIds (g : List JValue) : List String :=
  g.filterMap JValue.idOf

/-- Boolean membership in a list of strings. -/
def memS (a : String) : List String → Bool
  | [] => false
  | x :: xs => (x == a) || memS a xs

/-- Whether some string occurs at least twice in the list. -/
def hasDup : List String → Bool
  | [] => false
  | x :: xs => memS x xs || hasDup xs

/-- Whether the character sequence `needle` occurs at the start of `hay`. -/
def startsWith : List Char → List Char → Bool
  | _, [] => true
  | [], _ :: _ => false
  | h :: hs, n :: ns => (h == n) && startsWith hs ns

/-- Whether the character sequence `needle` occurs contiguously anywhere
inside `hay` (verbatim-substring test). -/
def containsSeg : List Char → List Char → Bool
  | [], needle => needle.isEmpty
  | h :: hs, needle => startsWith (h :: hs) needle || containsSeg hs needle

/-- The number of nodes of a graph tagged with the given `@type`. -/
def countType (g : List JValue) (t : String) : Nat :=
  g.countP (fun n => n.isType t)

/-! ## The identifier registry (NSRLConverter.uuids / get_uuid_for_id) -/

/-- The converter's identifier cache: `uuids : Dict[str, str]` plus the
position of the next unconsumed `uuid.uuid4()` draw in the abstract
uuid stream. -/
structure Registry where
  cache : List (String × String)
  fresh : Nat

/-- The cache at converter construction: empty, no draws consumed. -/
def emptyRegistry : Registry :=
  { cache := [], fresh := 0 }

/-- First-match lookup in the uuid cache. -/
def findKey : List (String × String) → String → Option String
  | [], _ => none
  | (k, v) :: rest, key => if k = key then some v else findKey rest key

/-- Embeds `get_uuid_for_id(self, prefix, id_str)` (nsrl_to_uco.py:315-319):
memoize one uuid draw per key `prefix ++ "-" ++ id_str`. -/
def get_uuid_for_id (supply : Nat → String) (st : Registry) (pre id_str : String) :
    String × Registry :=
  let key := pre ++ "-" ++ id_str
  match findKey st.cache key with
  | some v => (v, st)
  | none =>
    let v := supply st.fresh
    (v, { cache := (key, v) :: st.cache, fresh := st.fresh + 1 })

/-- Embeds `create_identifier(self, prefix, id_str)` (nsrl_to_uco.py:321-323),
which returns the f-string interpolation of kb:, prefix, id_str and the
memoized uuid, joined by hyphens. -/
def create_identifier (supply : Nat → String) (st : Registry) (pre id_str : String) :
    String × Registry :=
  let g := get_uuid_for_id supply st pre id_str
  ("kb:" ++ pre ++ "-" ++ id_str ++ "-" ++ g.1, g.2)

/-- A trace of registry calls: run `create_identifier` on each
(prefix, logical key) pair in order, collecting the returned ids. -/
def runCalls (supply : Nat → String) (st : Registry) :
    List (String × String) → List String × Registry
  | [] => ([], st)
  | c :: rest =>
    let r1 := create_identifier supply st c.1 c.2
    let r2 := runCalls supply r1.2 rest
    (r1.1 :: r2.1, r2.2)

/-! ## Input model

One input unit is one JSON file handed to `process_file`.
`ioError` stands for a unit whose open/`json.load` (or output write)
raises, caught by the except at nsrl_to_uco.py:526-528; `badFormat`
stands for parsed JSON that is not a dict with a "value" key
(nsrl_to_uco.py:333-337).  Both return `None` before any registry
call.  `doc` carries the parsed `data["value"]` record list. -/

/-- One entry of a record's `MediaFiles` list; `Option` models dict key
presence (the code reads keys with `.get` and defaults). -/
structure MediaFileR where
  fileName : Option String
  filePath : Option String
  md5 : Option String

/-- One record of the `value` list.  `mediaID` holds the
`str(...)`-rendering of the `MediaID` value when the key is present. -/
structure Media where
  mediaID : Option String
  mediaFiles : Option (List MediaFileR)

/-- One input unit for `process_file`. -/
inductive UnitSrc where
  | ioError
  | badFormat
  | doc (media_list : List Media)

/-- Units on which `process_file` hits its except-handler (or the
missing-"value" early return) and yields `None`. -/
def UnitSrc.failing : UnitSrc → Bool
  | .doc _ => false
  | .ioError => true
  | .badFormat => true

/-! ## Node builders: the dict literals of process_file (nsrl_to_uco.py:349-498) -/

/-- Typed xsd:dateTime value object. -/
def xsdDateTime (t : String) : JValue :=
  .obj [("@type", .str "xsd:dateTime"), ("@value", .str t)]

/-- Bare id reference object. -/
def mkRef (id : String) : JValue :=
  .obj [("@id", .str id)]

/-- The Bundle base object (nsrl_to_uco.py:350-358). -/
def bundleNode (id now : String) : JValue :=
  .obj [("@id", .str id),
        ("@type", .str "uco-core:Bundle"),
        ("uco-core:description",
         .str "NSRL CAID media file reference data converted to UCO format"),
        ("uco-core:objectCreatedTime", xsdDateTime now)]

/-- The NIST Organization base object (nsrl_to_uco.py:359-364). -/
def nistNode (id : String) : JValue :=
  .obj [("@id", .str id),
        ("@type", .str "uco-identity:Organization"),
        ("uco-core:name", .str "National Institute of Standards and Technology"),
        ("uco-core:description", .str "NIST maintains the NSRL CAID repository")]

/-- The source URL base object (nsrl_to_uco.py:365-371). -/
def sourceNode (id : String) : JValue :=
  .obj [("@id", .str id),
        ("@type", .str "uco-observable:URL"),
        ("uco-core:name", .str "NSRL CAID Repository"),
        ("uco-core:description",
         .str "National Software Reference Library - Comprehensive Application Identifier"),
        ("uco-observable:value",
         .str "https://s3.amazonaws.com/rds.nsrl.nist.gov/RDS/CAID/current/NSRL-CAID-JSONs.zip")]

/-- The ConfiguredTool base object (nsrl_to_uco.py:372-382). -/
def toolNode (id now : String) : JValue :=
  .obj [("@id", .str id),
        ("@type", .str "uco-tool:ConfiguredTool"),
        ("uco-core:name", .str "nsrl_to_uco.py"),
        ("uco-core:description", .str "Tool to convert NSRL CAID JSON to UCO format"),
        ("uco-core:version", .str "1.0.0"),
        ("uco-core:objectCreatedTime", xsdDateTime now)]

/-- The conversion Action base object (nsrl_to_uco.py:383-402). -/
def actionNode (id tool_id now pyver : String) : JValue :=
  .obj [("@id", .str id),
        ("@type", .str "uco-action:Action"),
        ("uco-core:name", .str "NSRL CAID to UCO Conversion"),
        ("uco-core:description", .str "Conversion of NSRL CAID data to UCO format"),
        ("uco-action:startTime", xsdDateTime now),
        ("uco-action:endTime", xsdDateTime now),
        ("uco-action:performer", mkRef tool_id),
        ("uco-action:environment",
         .obj [("@type", .str "uco-configuration:ConfigurationSetting"),
               ("uco-configuration:itemName", .str "Python Environment"),
               ("uco-configuration:itemValue", .str ("Python " ++ pyver))])]

/-- A Relationship node (nsrl_to_uco.py:407-418, 419-430, 485-496). -/
def relNode (id src tgt kind now : String) : JValue :=
  .obj [("@id", .str id),
        ("@type", .str "uco-core:Relationship"),
        ("uco-core:source", mkRef src),
        ("uco-core:target", mkRef tgt),
        ("uco-core:kindOfRelationship", .str kind),
        ("uco-core:isDirectional", .bool true),
        ("uco-core:objectCreatedTime", xsdDateTime now)]

/-- The per-entry Hash node (nsrl_to_uco.py:455-466). -/
def hashNode (id value : String) : JValue :=
  .obj [("@id", .str id),
        ("@type", .str "uco-types:Hash"),
        ("uco-types:hashMethod",
         .obj [("@type", .str "uco-vocabulary:HashNameVocab"), ("@value", .str "MD5")]),
        ("uco-types:hashValue",
         .obj [("@type", .str "xsd:hexBinary"), ("@value", .str value)])]

/-- The per-entry FileFacet node (nsrl_to_uco.py:469-475); note it carries
exactly the keys of the inline dict literal there. -/
def fileFacetNode (id fileName filePath hash_id : String) : JValue :=
  .obj [("@id", .str id),
        ("@type", .str "uco-observable:FileFacet"),
        ("uco-observable:fileName", .str fileName),
        ("uco-observable:filePath", .str filePath),
        ("uco-observable:hash", .arr [mkRef hash_id])]

/-- The File node (nsrl_to_uco.py:439-447), with the facet references
appended at nsrl_to_uco.py:478. -/
def fileNode (id now : String) (facetRefs : List JValue) : JValue :=
  .obj [("@id", .str id),
        ("@type", .str "uco-observable:File"),
        ("uco-core:objectCreatedTime", xsdDateTime now),
        ("uco-core:hasFacet", .arr facetRefs)]

/-! ## Graph assembly: process_file (nsrl_to_uco.py:325-528) -/

/-- One iteration of the inner loop over `media.get("MediaFiles", [])`
(nsrl_to_uco.py:450-482): resolve facet and hash identifiers, build the
Hash node and the FileFacet node.  Returns the facet id (appended to the
File node's hasFacet list) with the two nodes. -/
def mfStep (supply : Nat → String) (media_id : String) (st : Registry)
    (mf : MediaFileR) : (String × JValue × JValue) × Registry :=
  let c1 := create_identifier supply st "facet" (media_id ++ "-" ++ mf.md5.getD "unknown")
  let c2 := create_identifier supply c1.2 "hash" (mf.md5.getD "unknown")
  ((c1.1,
    fileFacetNode c1.1 (mf.fileName.getD "") (mf.filePath.getD "") c2.1,
    hashNode c2.1 (pyUpper (mf.md5.getD ""))), c2.2)

/-- The inner loop over the MediaFiles list: per entry the facet node then
the hash node are appended to the graph (nsrl_to_uco.py:481-482), and the
facet id to the File node's hasFacet list. -/
def mfLoop (supply : Nat → String) (media_id : String) (st : Registry) :
    List MediaFileR → (List String × List JValue) × Registry
  | [] => (([], []), st)
  | mf :: mfs =>
    let s := mfStep supply media_id st mf
    let rest := mfLoop supply media_id s.2 mfs
    ((s.1.1 :: rest.1.1, s.1.2.1 :: s.1.2.2 :: rest.1.2), rest.2)

/-- One iteration of the outer loop over `media_list`
(nsrl_to_uco.py:434-498): File id from MediaID (default "unknown"), the
MediaFiles entries, the action-to-file Relationship, then the File node
itself, appended in that order. -/
def mediaStep (supply : Nat → String) (now action_id : String) (st : Registry)
    (m : Media) : List JValue × Registry :=
  let media_id := m.mediaID.getD "unknown"
  let cf := create_identifier supply st "file" media_id
  let inner := mfLoop supply media_id cf.2 (m.mediaFiles.getD [])
  let cr := create_identifier supply inner.2 "relationship" ("action-file-" ++ media_id)
  (inner.1.2 ++
     [relNode cr.1 action_id cf.1 "outputFile" now,
      fileNode cf.1 now (inner.1.1.map mkRef)], cr.2)

/-- The outer loop over all records of one unit. -/
def mediaLoop (supply : Nat → String) (now action_id : String) (st : Registry) :
    List Media → List JValue × Registry
  | [] => ([], st)
  | m :: ms =>
    let c := mediaStep supply now action_id st m
    let rest := mediaLoop supply now action_id c.2 ms
    (c.1 ++ rest.1, rest.2)

/-- The output document of one unit: we track its `@graph` member list;
the `@context` header is the constant literal of nsrl_to_uco.py:502-514. -/
structure UcoDoc where
  graph : List JValue

/-- The successful body of `process_file` on a well-formed unit
(nsrl_to_uco.py:339-524): base objects (bundle, nist, source, tool,
action — identifiers resolved in the order bundle, tool, org, source,
action of lines 342-346), the two base Relationships, then the record
contributions.  Returns the document and the updated registry. -/
def processDoc (supply : Nat → String) (now pyver : String) (st : Registry)
    (ms : List Media) : UcoDoc × Registry :=
  let c1 := create_identifier supply st "bundle" "nsrl-caid"
  let c2 := create_identifier supply c1.2 "tool" "nsrl-to-uco"
  let c3 := create_identifier supply c2.2 "org" "nist"
  let c4 := create_identifier supply c3.2 "source" "nsrl-caid"
  let c5 := create_identifier supply c4.2 "action" "conversion"
  let c6 := create_identifier supply c5.2 "relationship" "source-maintainer"
  let c7 := create_identifier supply c6.2 "relationship" "action-source"
  let rest := mediaLoop supply now c5.1 c7.2 ms
  ({ graph :=
      [bundleNode c1.1 now, nistNode c3.1, sourceNode c4.1, toolNode c2.1 now,
       actionNode c5.1 c2.1 now pyver] ++
      [relNode c6.1 c4.1 c3.1 "maintainedBy" now,
       relNode c7.1 c5.1 c4.1 "inputSource" now] ++
      rest.1 }, rest.2)

/-- Embeds `process_file` (nsrl_to_uco.py:325-528): `None` on an i/o
exception or on parsed JSON without a "value" key, otherwise the built
document; the registry (`self.uuids`) persists across calls. -/
def processFile (supply : Nat → String) (now pyver : String) (st : Registry) :
    UnitSrc → Option UcoDoc × Registry
  | .ioError => (none, st)
  | .badFormat => (none, st)
  | .doc ms => (some (processDoc supply now pyver st ms).1, (processDoc supply now pyver st ms).2)

/-- Shorthand: the graph of a `process_file` outcome, empty on failure. -/
def graphOf : Option UcoDoc × Registry → List JValue
  | (some d, _) => d.graph
  | (none, _) => []

/-! ## process_input (nsrl_to_uco.py:530-570), directory mode -/

/-- The first member of a graph's node list, the meaning of the index
access at nsrl_to_uco.py:543/555. -/
def firstMember : List JValue → JValue
  | [] => JValue.obj []
  | x :: _ => x

/-- The tallies and collected outputs of one run over a batch. -/
structure RunResult where
  outputs : List UcoDoc
  combinedMembers : List JValue
  processedCount : Nat
  errorCount : Nat

/-- Modelled from the spec: `_write_output`, called at nsrl_to_uco.py:552,
has no definition under src/ (only this caller).  Per the spec's Document
Writer contract ("write(graph) -> persisted document" serializes the
graph; failures of the optional post-write steps "are reported but do not
undo the write"), it persists the already-built per-unit document and
returns without modifying the in-memory graph or aborting the run.  It is
therefore modelled as the identity on the document being persisted. -/
def writeOutput (d : UcoDoc) : UcoDoc := d

/-- The loop of `process_input` over the `*.json` files of a directory
(nsrl_to_uco.py:547-557): per unit one `process_file` call at the next
timestamp, on success the individual output is persisted and (in combine
mode) `result["@graph"][0]` is appended to `combined_results`; on failure
the error count is incremented and the loop continues. -/
def processInputAux (supply times : Nat → String) (pyver : String) (combine : Bool)
    (st : Registry) (idx : Nat) : List UnitSrc → RunResult × Registry
  | [] => ({ outputs := [], combinedMembers := [], processedCount := 0, errorCount := 0 }, st)
  | u :: us =>
    let p := processFile supply (times idx) pyver st u
    match p.1 with
    | some d =>
      let rest := processInputAux supply times pyver combine p.2 (idx + 1) us
      ({ outputs := writeOutput d :: rest.1.outputs,
         combinedMembers :=
           (if combine then [firstMember d.graph] else []) ++ rest.1.combinedMembers,
         processedCount := rest.1.processedCount + 1,
         errorCount := rest.1.errorCount }, rest.2)
    | none =>
      let rest := processInputAux supply times pyver combine p.2 (idx + 1) us
      ({ outputs := rest.1.outputs,
         combinedMembers := rest.1.combinedMembers,
         processedCount := rest.1.processedCount,
         errorCount := rest.1.errorCount + 1 }, rest.2)

/-- Embeds `process_input` in directory mode, starting from a fresh
converter (empty registry). -/
def processInput (supply times : Nat → String) (pyver : String) (combine : Bool)
    (units : List UnitSrc) : RunResult :=
  (processInputAux supply times pyver combine emptyRegistry 0 units).1

/-- The combined document's member list (nsrl_to_uco.py:560-568): written
only when the combine flag is set and `combined_results` is non-empty. -/
def combinedOut (combine : Bool) (r : RunResult) : Option (List JValue) :=
  if combine && !r.combinedMembers.isEmpty then some r.combinedMembers else none

/-! ## Concrete streams for counterexamples and witnesses -/

/-- A concrete uuid stream. -/
def supply0 : Nat → String := fun n => "u" ++ Nat.repr n

/-- A concrete timestamp stream. -/
def times0 : Nat → String := fun n => "t" ++ Nat.repr n

/-! ## Edge observations -/

/-- The id referenced by a Relationship node's source field. -/
def relSrc (n : JValue) : Option String :=
  match n.field "uco-core:source" with
  | some r => r.idOf
  | none => none

/-- The id referenced by a Relationship node's target field. -/
def relTgt (n : JValue) : Option String :=
  match n.field "uco-core:target" with
  | some r => r.idOf
  | none => none

/-- Whether a node is a Relationship node. -/
def isRel (n : JValue) : Bool :=
  n.isType "uco-core:Relationship"

/-- Both endpoint ids of an edge are among the given node ids. -/
def relOk (ids : List String) (n : JValue) : Bool :=
  match relSrc n, relTgt n with
  | some s, some t => memS s ids && memS t ids
  | some _, none => false
  | none, _ => false

/-- No dangling edges: every Relationship node of the graph references
only ids of nodes present in the graph's node list. -/
def noDanglingEdges (g : List JValue) : Bool :=
  g.all (fun n => !(isRel n) || relOk (nodeIds g) n)

/-! ## Concrete inputs used by counterexamples and witnesses -/

/-- A first entry carrying the MD5 value ABCD. -/
def mfDupA : MediaFileR :=
  { fileName := some "a.jpg", filePath := some "x/a.jpg", md5 := some "ABCD" }

/-- A second, distinct entry carrying the same MD5 value ABCD. -/
def mfDupB : MediaFileR :=
  { fileName := some "b.jpg", filePath := some "y/b.jpg", md5 := some "ABCD" }

/-- A unit whose single record holds two entries with an identical hash. -/
def unitDup : UnitSrc :=
  UnitSrc.doc [{ mediaID := some "1", mediaFiles := some [mfDupA, mfDupB] }]

/-- The record of the spec's round-trip property: FileName a.txt with the
MD5 of the empty input. -/
def mfTxt : MediaFileR :=
  { fileName := some "a.txt", filePath := some "a.txt",
    md5 := some "d41d8cd98f00b204e9800998ecf8427e" }

/-- The round-trip unit. -/
def unitTxt : UnitSrc :=
  UnitSrc.doc [{ mediaID := some "1", mediaFiles := some [mfTxt] }]

/-- Shorthand for the graph the converter builds from `unitTxt`. -/
def gTxt : List JValue :=
  graphOf (processFile supply0 "t0" "py" emptyRegistry unitTxt)

/-- A file entry with no MD5 key at all. -/
def mfNoHash : MediaFileR :=
  { fileName := some "n.bin", filePath := some "n.bin", md5 := none }

/-- A unit whose single record holds one entry without a hash value. -/
def unitNoHash : UnitSrc :=
  UnitSrc.doc [{ mediaID := some "3", mediaFiles := some [mfNoHash] }]

/-- A malformed record: its MediaFiles entry list is missing. -/
def mBad : Media :=
  { mediaID := some "1", mediaFiles := none }

/-- A well-formed file entry for the valid sibling record. -/
def mfVal : MediaFileR :=
  { fileName := some "v.txt", filePath := some "v.txt", md5 := some "AA" }

/-- A unit holding one malformed record and one valid record. -/
def unitMixed : UnitSrc :=
  UnitSrc.doc [mBad, { mediaID := some "2", mediaFiles := some [mfVal] }]

/-- A file entry used for the self-combine counterexample. -/
def mfSelf : MediaFileR :=
  { fileName := some "s.png", filePath := some "s.png", md5 := some "BEEF" }

/-- A unit used (twice) for the self-combine counterexample. -/
def unitSelf : UnitSrc :=
  UnitSrc.doc [{ mediaID := some "9", mediaFiles := some [mfSelf] }]

/-! ## Node-kind observations (one per builder and queried kind) -/

/-- String upper-casing of the empty string. -/
theorem empty_pyUpper : pyUpper "" = "" := rfl

/-- Ids of the builders, read back from the built node. -/
theorem idOf_bundleNode (i now : String) : (bundleNode i now).idOf = some i := rfl

/-- Id read-back for the Organization node. -/
theorem idOf_nistNode (i : String) : (nistNode i).idOf = some i := rfl

/-- Id read-back for the source URL node. -/
theorem idOf_sourceNode (i : String) : (sourceNode i).idOf = some i := rfl

/-- Id read-back for the Tool node. -/
theorem idOf_toolNode (i now : String) : (toolNode i now).idOf = some i := rfl

/-- Id read-back for the Action node. -/
theorem idOf_actionNode (i t now p : String) : (actionNode i t now p).idOf = some i := rfl

/-- Id read-back for Relationship nodes. -/
theorem idOf_relNode (i s t k now : String) : (relNode i s t k now).idOf = some i := rfl

/-- Id read-back for Hash nodes. -/
theorem idOf_hashNode (i v : String) : (hashNode i v).idOf = some i := rfl

/-- Id read-back for FileFacet nodes. -/
theorem idOf_fileFacetNode (i a b c : String) : (fileFacetNode i a b c).idOf = some i := rfl

/-- Id read-back for File nodes. -/
theorem idOf_fileNode (i now : String) (fs : List JValue) : (fileNode i now fs).idOf = some i := rfl

/-- Edge endpoints of the Relationship builder. -/
theorem relSrc_relNode (i s t k now : String) : relSrc (relNode i s t k now) = some s := rfl

/-- Edge target of the Relationship builder. -/
theorem relTgt_relNode (i s t k now : String) : relTgt (relNode i s t k now) = some t := rfl

/-- Kind tests against the Relationship kind. -/
theorem isRel_bundleNode (i now : String) : isRel (bundleNode i now) = false := rfl

/-- Kind test: the Organization node is not a Relationship. -/
theorem isRel_nistNode (i : String) : isRel (nistNode i) = false := rfl

/-- Kind test: the source URL node is not a Relationship. -/
theorem isRel_sourceNode (i : String) : isRel (sourceNode i) = false := rfl

/-- Kind test: the Tool node is not a Relationship. -/
theorem isRel_toolNode (i now : String) : isRel (toolNode i now) = false := rfl

/-- Kind test: the Action node is not a Relationship. -/
theorem isRel_actionNode (i t now p : String) : isRel (actionNode i t now p) = false := rfl

/-- Kind test: the Relationship builder is a Relationship. -/
theorem isRel_relNode (i s t k now : String) : isRel (relNode i s t k now) = true := rfl

/-- Kind test: Hash nodes are not Relationships. -/
theorem isRel_hashNode (i v : String) : isRel (hashNode i v) = false := rfl

/-- Kind test: FileFacet nodes are not Relationships. -/
theorem isRel_fileFacetNode (i a b c : String) : isRel (fileFacetNode i a b c) = false := rfl

/-- Kind test: File nodes are not Relationships. -/
theorem isRel_fileNode (i now : String) (fs : List JValue) : isRel (fileNode i now fs) = false := rfl

/-- Kind tests against the Hash kind. -/
theorem isHash_hashNode (i v : String) : (hashNode i v).isType "uco-types:Hash" = true := rfl

/-- Kind test: FileFacet nodes are not of the Hash kind. -/
theorem isHash_fileFacetNode (i a b c : String) :
    (fileFacetNode i a b c).isType "uco-types:Hash" = false := rfl

/-- Kind test: Relationship nodes are not of the Hash kind. -/
theorem isHash_relNode (i s t k now : String) :
    (relNode i s t k now).isType "uco-types:Hash" = false := rfl

/-- Kind test: File nodes are not of the Hash kind. -/
theorem isHash_fileNode (i now : String) (fs : List JValue) :
    (fileNode i now fs).isType "uco-types:Hash" = false := rfl

/-- Kind test: Bundle nodes are not of the Hash kind. -/
theorem isHash_bundleNode (i now : String) :
    (bundleNode i now).isType "uco-types:Hash" = false := rfl

/-- Kind test: Organization nodes are not of the Hash kind. -/
theorem isHash_nistNode (i : String) : (nistNode i).isType "uco-types:Hash" = false := rfl

/-- Kind test: URL nodes are not of the Hash kind. -/
theorem isHash_sourceNode (i : String) : (sourceNode i).isType "uco-types:Hash" = false := rfl

/-- Kind test: Tool nodes are not of the Hash kind. -/
theorem isHash_toolNode (i now : String) : (toolNode i now).isType "uco-types:Hash" = false := rfl

/-- Kind test: Action nodes are not of the Hash kind. -/
theorem isHash_actionNode (i t now p : String) :
    (actionNode i t now p).isType "uco-types:Hash" = false := rfl

/-- Kind test against the Bundle kind. -/
theorem isBundle_bundleNode (i now : String) :
    (bundleNode i now).isType "uco-core:Bundle" = true := rfl

/-- Hash-value read-back of the Hash builder. -/
theorem hashValOf_hashNode (i v : String) : hashValOf (hashNode i v) = some v := rfl

/-- The facet built inline by process_file always references exactly one
hash id in its hash list. -/
theorem facet_hash_len (i a b c : String) :
    arrLen ((fileFacetNode i a b c).field "uco-observable:hash") = 1 := rfl

/-! ## Counting helpers -/

/-- Node-kind count of the empty graph. -/
theorem countType_nil (t : String) : countType [] t = 0 := rfl

/-- Node-kind count over a cons cell. -/
theorem countType_cons (x : JValue) (g : List JValue) (t : String) :
    countType (x :: g) t = countType g t + (if x.isType t then 1 else 0) :=
  List.countP_cons _ _ _

/-- Node-kind count over an append. -/
theorem countType_append (g1 g2 : List JValue) (t : String) :
    countType (g1 ++ g2) t = countType g1 t + countType g2 t :=
  List.countP_append _ _ _

/-! ## Registry lemmas -/

/-- Unfolding of the identifier string built by `create_identifier`. -/
theorem create_fst (supply : Nat → String) (st : Registry) (pre key : String) :
    (create_identifier supply st pre key).1
      = "kb:" ++ pre ++ "-" ++ key ++ "-" ++ (get_uuid_for_id supply st pre key).1 := rfl

/-- Unfolding of the registry returned by `create_identifier`. -/
theorem create_snd (supply : Nat → String) (st : Registry) (pre key : String) :
    (create_identifier supply st pre key).2 = (get_uuid_for_id supply st pre key).2 := rfl

/-- Existing cache bindings survive any `get_uuid_for_id` call: the cache
only ever grows by keys that were absent. -/
theorem get_uuid_preserves (supply : Nat → String) (st : Registry) (p k key v : String)
    (h : findKey st.cache key = some v) :
    findKey (get_uuid_for_id supply st p k).2.cache key = some v := by
  unfold get_uuid_for_id
  cases hf : findKey st.cache (p ++ "-" ++ k) with
  | some w => simpa [hf] using h
  | none =>
    simp only [hf, findKey]
    by_cases he : p ++ "-" ++ k = key
    · rw [he] at hf
      rw [hf] at h
      exact absurd h (by simp)
    · simp [he, h]

/-- After a `get_uuid_for_id` call the cache binds its key to its result. -/
theorem get_uuid_post (supply : Nat → String) (st : Registry) (p k : String) :
    findKey (get_uuid_for_id supply st p k).2.cache (p ++ "-" ++ k)
      = some (get_uuid_for_id supply st p k).1 := by
  unfold get_uuid_for_id
  cases hf : findKey st.cache (p ++ "-" ++ k) with
  | some w => simp [hf]
  | none => simp [hf, findKey]

/-- A cache hit returns the cached uuid and leaves the registry unchanged. -/
theorem get_uuid_cached (supply : Nat → String) (st : Registry) (p k v : String)
    (h : findKey st.cache (p ++ "-" ++ k) = some v) :
    get_uuid_for_id supply st p k = (v, st) := by
  simp [get_uuid_for_id, h]

/-- Existing cache bindings survive any `create_identifier` call. -/
theorem create_preserves (supply : Nat → String) (st : Registry) (p k key v : String)
    (h : findKey st.cache key = some v) :
    findKey (create_identifier supply st p k).2.cache key = some v := by
  rw [create_snd]
  exact get_uuid_preserves supply st p k key v h

/-- Existing cache bindings survive any trace of registry calls. -/
theorem runCalls_preserves (supply : Nat → String) (st : Registry)
    (calls : List (String × String)) (key v : String)
    (h : findKey st.cache key = some v) :
    findKey (runCalls supply st calls).2.cache key = some v := by
  induction calls generalizing st with
  | nil => exact h
  | cons c rest ih =>
    exact ih (create_identifier supply st c.1 c.2).2 (create_preserves supply st c.1 c.2 key v h)

/-- C4: for every pair of calls to the identifier registry with the same
(kind prefix, logical key) pair within one run — here: a first
`create_identifier` call from any registry state, then any trace `mid` of
further calls, then a second call with the same pair — the returned
identifier string is identical.  In particular, two records sharing the
same grouping key receive the same File node id. -/
theorem C4_registry_deterministic (supply : Nat → String) (st : Registry)
    (pre key : String) (mid : List (String × String)) :
    (create_identifier supply
        (runCalls supply (create_identifier supply st pre key).2 mid).2 pre key).1
      = (create_identifier supply st pre key).1 := by
  have h0 : findKey (create_identifier supply st pre key).2.cache (pre ++ "-" ++ key)
      = some (get_uuid_for_id supply st pre key).1 := by
    rw [create_snd]
    exact get_uuid_post supply st pre key
  have h1 := runCalls_preserves supply (create_identifier supply st pre key).2 mid
    (pre ++ "-" ++ key) (get_uuid_for_id supply st pre key).1 h0
  rw [create_fst, create_fst,
    get_uuid_cached supply _ pre key (get_uuid_for_id supply st pre key).1 h1]

/-- C9 counterexample: a logical key containing characters outside any
identifier alphabet (space, slash, exclamation mark) is embedded verbatim
— untransformed — in the identifier returned by the registry. -/
theorem C9_counterexample :
    (create_identifier supply0 emptyRegistry "file" "a b/c!").1 = "kb:file-a b/c!-u0"
    ∧ containsSeg ("kb:file-a b/c!-u0".toList) ("a b/c!".toList) = true := by
  exact ⟨rfl, by decide⟩

/-- C9 as amended: `create_identifier` applies no transformation at all —
the raw logical key is embedded verbatim between the kind prefix and the
memoized uuid — and the result is deterministic within a run (an
immediately repeated call returns the identical string). -/
theorem C9_verbatim_embedding (supply : Nat → String) (st : Registry) (pre key : String) :
    (create_identifier supply st pre key).1
      = "kb:" ++ pre ++ "-" ++ key ++ "-" ++ (get_uuid_for_id supply st pre key).1
    ∧ (create_identifier supply (create_identifier supply st pre key).2 pre key).1
      = (create_identifier supply st pre key).1 := by
  refine ⟨rfl, ?_⟩
  have h0 : findKey (create_identifier supply st pre key).2.cache (pre ++ "-" ++ key)
      = some (get_uuid_for_id supply st pre key).1 := by
    rw [create_snd]
    exact get_uuid_post supply st pre key
  rw [create_fst, create_fst,
    get_uuid_cached supply _ pre key (get_uuid_for_id supply st pre key).1 h0]

/-! ## C1: node-list deduplication -/

/-- C1 counterexample: in a run over one unit whose record carries two
file entries with the identical MD5 value, the output graph holds two
Hash node bodies (and repeated ids in its node list) — re-insertion of an
already-present id is not skipped. -/
theorem C1_counterexample :
    countType (graphOf (processFile supply0 "t0" "py" emptyRegistry unitDup)) "uco-types:Hash" = 2
    ∧ hasDup (nodeIds (graphOf (processFile supply0 "t0" "py" emptyRegistry unitDup))) = true :=
  ⟨by decide, by decide⟩

/-- Hash node count contributed by the inner MediaFiles loop: exactly one
Hash node per file entry, duplicates included. -/
theorem mfLoop_hash_count (supply : Nat → String) (mid : String) (st : Registry)
    (mfs : List MediaFileR) :
    countType ((mfLoop supply mid st mfs).1.2) "uco-types:Hash" = mfs.length := by
  induction mfs generalizing st with
  | nil => rfl
  | cons mf mfs ih =>
    simp only [mfLoop, mfStep]
    rw [countType_cons, countType_cons, ih]
    simp [isHash_fileFacetNode, isHash_hashNode]

/-- Hash node count contributed by one record. -/
theorem mediaStep_hash_count (supply : Nat → String) (now aid : String) (st : Registry)
    (m : Media) :
    countType (mediaStep supply now aid st m).1 "uco-types:Hash"
      = (m.mediaFiles.getD []).length := by
  simp only [mediaStep]
  rw [countType_append, mfLoop_hash_count, countType_cons, countType_cons, countType_nil]
  simp [isHash_relNode, isHash_fileNode]

/-- Hash node count contributed by the record loop. -/
theorem mediaLoop_hash_count (supply : Nat → String) (now aid : String) (st : Registry)
    (ms : List Media) :
    countType (mediaLoop supply now aid st ms).1 "uco-types:Hash"
      = (ms.map (fun m => (m.mediaFiles.getD []).length)).sum := by
  induction ms generalizing st with
  | nil => rfl
  | cons m ms ih =>
    simp only [mediaLoop]
    rw [countType_append, mediaStep_hash_count, ih, List.map_cons, List.sum_cons]

/-- C1 as amended: the identifier registry does make every occurrence of
one hash value share a single id string, but re-insertion is not skipped —
the node list gains one Hash node body per file entry, so a hash value
appearing in N entries across the run yields N Hash node bodies (all with
that one id) rather than one. -/
theorem C1_hash_per_entry (supply : Nat → String) (now pyver : String) (st : Registry)
    (ms : List Media) :
    countType (graphOf (processFile supply now pyver st (UnitSrc.doc ms))) "uco-types:Hash"
      = (ms.map (fun m => (m.mediaFiles.getD []).length)).sum := by
  show countType ((processDoc supply now pyver st ms).1.graph) "uco-types:Hash" = _
  simp only [processDoc]
  rw [countType_append, countType_append, mediaLoop_hash_count]
  rw [countType_cons, countType_cons, countType_cons, countType_cons, countType_cons,
    countType_cons, countType_cons, countType_nil]
  simp [isHash_bundleNode, isHash_nistNode, isHash_sourceNode, isHash_toolNode,
    isHash_actionNode, isHash_relNode]

/-! ## C5: empty hash values -/

/-- C5 counterexample: a file entry with no MD5 key still makes the run
emit a Hash node whose hashValue is the empty string, and the facet still
carries a hash reference to it. -/
theorem C5_counterexample :
    (graphOf (processFile supply0 "t0" "py" emptyRegistry unitNoHash)).countP
        (fun n => n.isType "uco-types:Hash" && (hashValOf n == some "")) = 1
    ∧ (graphOf (processFile supply0 "t0" "py" emptyRegistry unitNoHash)).countP
        (fun n => n.isType "uco-observable:FileFacet"
          && (arrLen (n.field "uco-observable:hash") == 1)) = 1 :=
  ⟨by decide, by decide⟩

/-- C5 as amended: a file entry whose hash value is missing or empty is
not rejected — the builder still emits a Hash node whose hashValue is the
empty string and the facet still references it — while the containing
unit succeeds. -/
theorem C5_empty_hash_emitted (supply : Nat → String) (now pyver media_id : String)
    (st : Registry) (mf : MediaFileR) (h : mf.md5 = none ∨ mf.md5 = some "") :
    hashValOf ((mfStep supply media_id st mf).1.2.2) = some ""
    ∧ arrLen (((mfStep supply media_id st mf).1.2.1).field "uco-observable:hash") = 1
    ∧ ((processFile supply now pyver st
        (UnitSrc.doc [{ mediaID := some media_id, mediaFiles := some [mf] }])).1).isSome
        = true := by
  refine ⟨?_, ?_, rfl⟩
  · rcases h with h | h <;>
      simp [mfStep, h, hashValOf_hashNode, empty_pyUpper]
  · simp [mfStep, facet_hash_len]

/-- C5 witness: the amended statement at the concrete hash-less entry. -/
theorem C5_witness :
    (mfNoHash.md5 = none ∨ mfNoHash.md5 = some "")
    ∧ (hashValOf ((mfStep supply0 "3" emptyRegistry mfNoHash).1.2.2) = some ""
       ∧ arrLen (((mfStep supply0 "3" emptyRegistry mfNoHash).1.2.1).field "uco-observable:hash") = 1
       ∧ ((processFile supply0 "t0" "py" emptyRegistry
            (UnitSrc.doc [{ mediaID := some "3", mediaFiles := some [mfNoHash] }])).1).isSome
            = true) :=
  ⟨Or.inl rfl,
   C5_empty_hash_emitted supply0 "t0" "py" "3" emptyRegistry mfNoHash (Or.inl rfl)⟩

/-! ## C6: round-trip attribute preservation -/

/-- C6 counterexample: on the spec's own round-trip record the graph's
single FileFacet node carries no extension attribute at all, against the
claimed extension "txt". -/
theorem C6_counterexample :
    countType gTxt "uco-observable:FileFacet" = 1
    ∧ gTxt.countP (fun n => n.isType "uco-observable:FileFacet"
        && n.hasField "uco-observable:extension") = 0 :=
  ⟨by decide, by decide⟩

/-- C6 as amended: the run over the round-trip record yields exactly one
Hash node, its hashValue the uppercased hex digest, and exactly one
FileFacet node with fileName a.txt — but that facet carries no extension
attribute (the inline facet literal of process_file has no such key). -/
theorem C6_attributes_preserved :
    countType gTxt "uco-types:Hash" = 1
    ∧ gTxt.countP (fun n => n.isType "uco-types:Hash"
        && (hashValOf n == some "D41D8CD98F00B204E9800998ECF8427E")) = 1
    ∧ gTxt.countP (fun n => n.isType "uco-observable:FileFacet"
        && (strField n "uco-observable:fileName" == some "a.txt")) = 1
    ∧ gTxt.countP (fun n => n.isType "uco-observable:FileFacet"
        && n.hasField "uco-observable:extension") = 0 :=
  ⟨by decide, by decide, by decide, by decide⟩

/-! ## C7: the malformed-record policy -/

/-- C7 counterexample: a unit holding one record without a MediaFiles
list and one valid record is processed with an error count of zero, and
its graph holds a File node (and an action-file Relationship) for the
malformed record as well — two File nodes and four Relationships in all. -/
theorem C7_counterexample :
    (processInput supply0 times0 "py" false [unitMixed]).errorCount = 0
    ∧ countType (graphOf (processFile supply0 "t0" "py" emptyRegistry unitMixed))
        "uco-observable:File" = 2
    ∧ countType (graphOf (processFile supply0 "t0" "py" emptyRegistry unitMixed))
        "uco-core:Relationship" = 4 :=
  ⟨by decide, by decide, by decide⟩

/-- C7 as amended: a record whose MediaFiles list is missing is not an
error: its entry list defaults to empty, so the record still yields
exactly one File node and one Relationship and no facet or hash nodes,
and a unit containing such a record completes with an error count of
zero. -/
theorem C7_missing_entry_list (supply times : Nat → String)
    (now action_id pyver : String) (combine : Bool) (st : Registry) (m : Media)
    (h : m.mediaFiles = none) :
    countType (mediaStep supply now action_id st m).1 "uco-observable:FileFacet" = 0
    ∧ countType (mediaStep supply now action_id st m).1 "uco-types:Hash" = 0
    ∧ countType (mediaStep supply now action_id st m).1 "uco-observable:File" = 1
    ∧ countType (mediaStep supply now action_id st m).1 "uco-core:Relationship" = 1
    ∧ (processInput supply times pyver combine [UnitSrc.doc [m]]).errorCount = 0 := by
  refine ⟨?_, ?_, ?_, ?_, ?_⟩
  · simp [mediaStep, h, mfLoop, countType_cons, countType_nil, JValue.isType,
      relNode, fileNode, JValue.typeOf, JValue.field, findField, countType]
  · simp [mediaStep, h, mfLoop, countType_cons, countType_nil, JValue.isType,
      relNode, fileNode, JValue.typeOf, JValue.field, findField, countType]
  · simp [mediaStep, h, mfLoop, countType_cons, countType_nil, JValue.isType,
      relNode, fileNode, JValue.typeOf, JValue.field, findField, countType]
  · simp [mediaStep, h, mfLoop, countType_cons, countType_nil, JValue.isType,
      relNode, fileNode, JValue.typeOf, JValue.field, findField, countType]
  · simp [processInput, processInputAux, processFile]

/-- C7 witness: the amended statement at the concrete malformed record. -/
theorem C7_witness :
    mBad.mediaFiles = none
    ∧ (countType (mediaStep supply0 "t0" "kb:a" emptyRegistry mBad).1 "uco-observable:FileFacet" = 0
       ∧ countType (mediaStep supply0 "t0" "kb:a" emptyRegistry mBad).1 "uco-types:Hash" = 0
       ∧ countType (mediaStep supply0 "t0" "kb:a" emptyRegistry mBad).1 "uco-observable:File" = 1
       ∧ countType (mediaStep supply0 "t0" "kb:a" emptyRegistry mBad).1 "uco-core:Relationship" = 1
       ∧ (processInput supply0 times0 "py" false [UnitSrc.doc [mBad]]).errorCount = 0) :=
  ⟨rfl, C7_missing_entry_list supply0 times0 "t0" "kb:a" "py" false emptyRegistry mBad rfl⟩

/-! ## C2: per-unit failure isolation -/

/-- C2: an exception while processing one input unit is caught inside
process_file, which returns None with the registry untouched; the batch
loop then counts exactly one error for that unit and processes every
remaining sibling unit exactly as before — no failure aborts the loop. -/
theorem C2_failure_isolated (supply times : Nat → String) (pyver : String)
    (combine : Bool) (st : Registry) (idx : Nat) (u : UnitSrc) (us : List UnitSrc)
    (h : u.failing = true) :
    processFile supply (times idx) pyver st u = (none, st)
    ∧ processInputAux supply times pyver combine st idx (u :: us)
        = ({ outputs := (processInputAux supply times pyver combine st (idx + 1) us).1.outputs,
             combinedMembers :=
               (processInputAux supply times pyver combine st (idx + 1) us).1.combinedMembers,
             processedCount :=
               (processInputAux supply times pyver combine st (idx + 1) us).1.processedCount,
             errorCount :=
               (processInputAux supply times pyver combine st (idx + 1) us).1.errorCount + 1 },
           (processInputAux supply times pyver combine st (idx + 1) us).2) := by
  cases u with
  | doc ms => exact absurd h (by simp [UnitSrc.failing])
  | ioError => exact ⟨rfl, rfl⟩
  | badFormat => exact ⟨rfl, rfl⟩

/-- C2 witness: the theorem at a concrete failing unit in a batch. -/
theorem C2_witness :
    UnitSrc.failing UnitSrc.ioError = true
    ∧ (processFile supply0 (times0 0) "py" emptyRegistry UnitSrc.ioError
        = (none, emptyRegistry)
       ∧ processInputAux supply0 times0 "py" true emptyRegistry 0 [UnitSrc.ioError]
          = ({ outputs := (processInputAux supply0 times0 "py" true emptyRegistry (0 + 1) []).1.outputs,
               combinedMembers :=
                 (processInputAux supply0 times0 "py" true emptyRegistry (0 + 1) []).1.combinedMembers,
               processedCount :=
                 (processInputAux supply0 times0 "py" true emptyRegistry (0 + 1) []).1.processedCount,
               errorCount :=
                 (processInputAux supply0 times0 "py" true emptyRegistry (0 + 1) []).1.errorCount + 1 },
             (processInputAux supply0 times0 "py" true emptyRegistry (0 + 1) []).2)) :=
  ⟨rfl, C2_failure_isolated supply0 times0 "py" true emptyRegistry 0 UnitSrc.ioError [] rfl⟩

/-! ## Combine-mode structure (C3, C10) -/

/-- The first member of every per-unit graph is the Bundle base object. -/
theorem processDoc_head (supply : Nat → String) (now pyver : String) (st : Registry)
    (ms : List Media) :
    firstMember (processDoc supply now pyver st ms).1.graph
      = bundleNode (create_identifier supply st "bundle" "nsrl-caid").1 now := rfl

/-- In combine mode the collected members are exactly the heads of the
successful per-unit graphs, in unit order; the processed tally equals the
number of persisted outputs. -/
theorem aux_combined_eq (supply times : Nat → String) (pyver : String) (st : Registry)
    (idx : Nat) (us : List UnitSrc) :
    (processInputAux supply times pyver true st idx us).1.combinedMembers
      = (processInputAux supply times pyver true st idx us).1.outputs.map
          (fun d => firstMember d.graph)
    ∧ (processInputAux supply times pyver true st idx us).1.outputs.length
      = (processInputAux supply times pyver true st idx us).1.processedCount := by
  induction us generalizing st idx with
  | nil => exact ⟨rfl, rfl⟩
  | cons u us ih =>
    cases u with
    | doc ms =>
      obtain ⟨h1, h2⟩ := ih (processDoc supply (times idx) pyver st ms).2 (idx + 1)
      simp [processInputAux, processFile, writeOutput, h1, h2]
    | ioError =>
      obtain ⟨h1, h2⟩ := ih st (idx + 1)
      simp [processInputAux, processFile, h1, h2]
    | badFormat =>
      obtain ⟨h1, h2⟩ := ih st (idx + 1)
      simp [processInputAux, processFile, h1, h2]

/-- Every persisted per-unit document starts with a Bundle node. -/
theorem aux_outputs_bundle (supply times : Nat → String) (pyver : String)
    (combine : Bool) (st : Registry) (idx : Nat) (us : List UnitSrc) :
    ((processInputAux supply times pyver combine st idx us).1.outputs).all
      (fun d => (firstMember d.graph).isType "uco-core:Bundle") = true := by
  induction us generalizing st idx with
  | nil => rfl
  | cons u us ih =>
    cases u with
    | doc ms =>
      have hh := ih (processDoc supply (times idx) pyver st ms).2 (idx + 1)
      rw [List.all_eq_true] at hh
      simp [processInputAux, processFile, writeOutput, processDoc_head,
        isBundle_bundleNode]
      exact hh
    | ioError =>
      simpa [processInputAux, processFile] using ih st (idx + 1)
    | badFormat =>
      simpa [processInputAux, processFile] using ih st (idx + 1)

/-- C10: in combine mode the combined document exists exactly when some
unit succeeded; its member list is the first element (the Bundle header)
of each successful unit's graph in processing order, its length is the
processed-unit tally, and every member is a Bundle node — so no File,
FileFacet, Hash or Relationship node of any unit appears in it. -/
theorem C10_combined_bundle_heads (supply times : Nat → String) (pyver : String)
    (units : List UnitSrc) :
    combinedOut true (processInput supply times pyver true units)
      = (if (processInput supply times pyver true units).outputs.isEmpty then none
         else some ((processInput supply times pyver true units).outputs.map
           (fun d => firstMember d.graph)))
    ∧ ((combinedOut true (processInput supply times pyver true units)).getD []).length
        = (processInput supply times pyver true units).processedCount
    ∧ ((combinedOut true (processInput supply times pyver true units)).getD []).all
        (fun n => n.isType "uco-core:Bundle") = true := by
  obtain ⟨h1, h2⟩ := aux_combined_eq supply times pyver emptyRegistry 0 units
  have h3 := aux_outputs_bundle supply times pyver true emptyRegistry 0 units
  cases houts : (processInputAux supply times pyver true emptyRegistry 0 units).1.outputs with
  | nil =>
    rw [houts] at h1 h2 h3
    refine ⟨?_, ?_, ?_⟩ <;>
      simp [processInput, combinedOut, houts, h1, ← h2]
  | cons d ds =>
    rw [houts] at h1 h2 h3
    rw [List.all_eq_true] at h3
    have hd : (firstMember d.graph).isType "uco-core:Bundle" = true :=
      h3 d (List.mem_cons_self d ds)
    have h4 : ∀ a ∈ ds, (firstMember a.graph).isType "uco-core:Bundle" = true :=
      fun a ha => h3 a (List.mem_cons_of_mem d ha)
    refine ⟨?_, ?_, ?_⟩
    · simp [processInput, combinedOut, houts, h1]
    · simp [processInput, combinedOut, houts, h1, ← h2]
    · simp only [processInput, combinedOut, houts, h1]
      simp [List.all_map, Function.comp, hd]
      exact h4

/-! ## C3: combine is not a node-list merge -/

/-- C3 counterexample: combining one unit with itself yields a combined
member list of two entries bearing the same id — not the original
11-node member set, and with duplication. -/
theorem C3_counterexample :
    (processInput supply0 times0 "py" true [unitSelf, unitSelf]).combinedMembers.length = 2
    ∧ hasDup ((processInput supply0 times0 "py" true
        [unitSelf, unitSelf]).combinedMembers.filterMap JValue.idOf) = true
    ∧ ((processInput supply0 times0 "py" true [unitSelf, unitSelf]).outputs.map
        (fun d => d.graph.length)) = [11, 11] :=
  ⟨by decide, by decide, by decide⟩

/-- Cache preservation through one MediaFiles entry. -/
theorem mfStep_preserves (supply : Nat → String) (mid : String) (st : Registry)
    (mf : MediaFileR) (key v : String) (h : findKey st.cache key = some v) :
    findKey (mfStep supply mid st mf).2.cache key = some v := by
  simp only [mfStep]
  exact create_preserves _ _ _ _ _ _ (create_preserves _ _ _ _ _ _ h)

/-- Cache preservation through the MediaFiles loop. -/
theorem mfLoop_preserves (supply : Nat → String) (mid : String) (st : Registry)
    (mfs : List MediaFileR) (key v : String) (h : findKey st.cache key = some v) :
    findKey (mfLoop supply mid st mfs).2.cache key = some v := by
  induction mfs generalizing st with
  | nil => exact h
  | cons mf mfs ih =>
    simp only [mfLoop]
    exact ih _ (mfStep_preserves supply mid st mf key v h)

/-- Cache preservation through one record. -/
theorem mediaStep_preserves (supply : Nat → String) (now aid : String) (st : Registry)
    (m : Media) (key v : String) (h : findKey st.cache key = some v) :
    findKey (mediaStep supply now aid st m).2.cache key = some v := by
  simp only [mediaStep]
  exact create_preserves _ _ _ _ _ _
    (mfLoop_preserves _ _ _ _ _ _ (create_preserves _ _ _ _ _ _ h))

/-- Cache preservation through the record loop. -/
theorem mediaLoop_preserves (supply : Nat → String) (now aid : String) (st : Registry)
    (ms : List Media) (key v : String) (h : findKey st.cache key = some v) :
    findKey (mediaLoop supply now aid st ms).2.cache key = some v := by
  induction ms generalizing st with
  | nil => exact h
  | cons m ms ih =>
    simp only [mediaLoop]
    exact ih _ (mediaStep_preserves supply now aid st m key v h)

/-- After one successful unit the registry still binds the bundle key to
the uuid drawn for it at the start of that unit. -/
theorem processDoc_bundle_cached (supply : Nat → String) (now pyver : String)
    (st : Registry) (ms : List Media) :
    findKey (processDoc supply now pyver st ms).2.cache ("bundle" ++ "-" ++ "nsrl-caid")
      = some (get_uuid_for_id supply st "bundle" "nsrl-caid").1 := by
  simp only [processDoc]
  apply mediaLoop_preserves
  apply create_preserves
  apply create_preserves
  apply create_preserves
  apply create_preserves
  apply create_preserves
  apply create_preserves
  rw [create_snd]
  exact get_uuid_post supply st "bundle" "nsrl-caid"

/-- C3 as amended: combine does not merge the units' node lists with an
id-based first-wins rule; it appends the Bundle header of each unit's
graph.  Combining any unit with itself yields a combined member list of
exactly two entries whose ids coincide (the memoized bundle id), not the
original member set without duplication. -/
theorem C3_combine_self (supply times : Nat → String) (pyver : String) (ms : List Media) :
    (processInput supply times pyver true [UnitSrc.doc ms, UnitSrc.doc ms]).combinedMembers.length = 2
    ∧ hasDup ((processInput supply times pyver true
        [UnitSrc.doc ms, UnitSrc.doc ms]).combinedMembers.filterMap JValue.idOf) = true := by
  have hmem : (processInput supply times pyver true
      [UnitSrc.doc ms, UnitSrc.doc ms]).combinedMembers
      = [firstMember (processDoc supply (times 0) pyver emptyRegistry ms).1.graph,
         firstMember (processDoc supply (times 1) pyver
           (processDoc supply (times 0) pyver emptyRegistry ms).2 ms).1.graph] := by
    simp [processInput, processInputAux, processFile]
  have hb2 : (create_identifier supply
        (processDoc supply (times 0) pyver emptyRegistry ms).2 "bundle" "nsrl-caid").1
      = (create_identifier supply emptyRegistry "bundle" "nsrl-caid").1 := by
    rw [create_fst, create_fst,
      get_uuid_cached supply _ "bundle" "nsrl-caid" _
        (processDoc_bundle_cached supply (times 0) pyver emptyRegistry ms)]
  rw [hmem, processDoc_head, processDoc_head]
  constructor
  · rfl
  · simp only [List.filterMap, idOf_bundleNode]
    rw [hb2]
    simp [hasDup, memS]

/-! ## C8: no dangling edges -/

/-- Membership implies boolean membership. -/
theorem memS_of_mem {a : String} {l : List String} (h : a ∈ l) : memS a l = true := by
  induction l with
  | nil => cases h
  | cons x xs ih =>
    rcases List.mem_cons.mp h with h1 | h2
    · subst h1
      simp [memS]
    · simp [memS, ih h2]

/-- Node ids distribute over graph concatenation. -/
theorem nodeIds_append (l1 l2 : List JValue) :
    nodeIds (l1 ++ l2) = nodeIds l1 ++ nodeIds l2 := by
  simp [nodeIds]

/-- A node present in a graph contributes its id to the graph's id list. -/
theorem id_mem_nodeIds {x : JValue} {l : List JValue} {i : String}
    (hx : x ∈ l) (hid : x.idOf = some i) : i ∈ nodeIds l :=
  List.mem_filterMap.mpr ⟨x, hx, hid⟩

/-- The inner MediaFiles loop emits no Relationship nodes. -/
theorem mfLoop_no_rel (supply : Nat → String) (mid : String) (st : Registry)
    (mfs : List MediaFileR) :
    ∀ x ∈ (mfLoop supply mid st mfs).1.2, isRel x = false := by
  induction mfs generalizing st with
  | nil =>
    intro x hx
    simp [mfLoop] at hx
  | cons mf mfs ih =>
    intro x hx
    simp only [mfLoop] at hx
    rcases List.mem_cons.mp hx with h | hx2
    · subst h
      simp only [mfStep]
      exact isRel_fileFacetNode _ _ _ _
    · rcases List.mem_cons.mp hx2 with h | h3
      · subst h
        simp only [mfStep]
        exact isRel_hashNode _ _
      · exact ih _ x h3

/-- Every Relationship node emitted by the record loop points from the
action id to a File id whose node is present in the loop's own output. -/
theorem mediaLoop_rels (supply : Nat → String) (now aid : String) (st : Registry)
    (ms : List Media) :
    ∀ x ∈ (mediaLoop supply now aid st ms).1, isRel x = true →
      relSrc x = some aid
      ∧ ∃ f, relTgt x = some f ∧ f ∈ nodeIds (mediaLoop supply now aid st ms).1 := by
  induction ms generalizing st with
  | nil =>
    intro x hx
    simp [mediaLoop] at hx
  | cons m ms ih =>
    intro x hx hrel
    simp only [mediaLoop] at hx ⊢
    rw [List.mem_append] at hx
    rcases hx with hx | hx
    · simp only [mediaStep] at hx
      rw [List.mem_append] at hx
      rcases hx with hx | hx
      · have hno := mfLoop_no_rel supply (m.mediaID.getD "unknown")
          (create_identifier supply st "file" (m.mediaID.getD "unknown")).2
          (m.mediaFiles.getD []) x hx
        simp [hno] at hrel
      · rcases List.mem_cons.mp hx with h | hx2
        · subst h
          refine ⟨rfl,
            (create_identifier supply st "file" (m.mediaID.getD "unknown")).1, rfl, ?_⟩
          rw [nodeIds_append]
          apply List.mem_append_left
          have hmemf : fileNode (create_identifier supply st "file" (m.mediaID.getD "unknown")).1 now
              (List.map mkRef
                (mfLoop supply (m.mediaID.getD "unknown")
                    (create_identifier supply st "file" (m.mediaID.getD "unknown")).2
                    (m.mediaFiles.getD [])).1.1)
              ∈ (mediaStep supply now aid st m).1 := by
            simp only [mediaStep]
            exact List.mem_append_right _ (List.mem_cons_of_mem _ (List.mem_cons_self _ _))
          exact id_mem_nodeIds hmemf (idOf_fileNode _ _ _)
        · rcases List.mem_cons.mp hx2 with h | h0
          · subst h
            rw [isRel_fileNode] at hrel
            cases hrel
          · cases h0
    · obtain ⟨hsrc, f, htgt, hf⟩ := ih (mediaStep supply now aid st m).2 x hx hrel
      refine ⟨hsrc, f, htgt, ?_⟩
      rw [nodeIds_append]
      exact List.mem_append_right _ hf

/-- Assembly of the no-dangling-edges property from the base objects, the
two base Relationships, and a record-loop output whose Relationships are
all action-to-file edges with in-list targets. -/
theorem noDangling_assembled (bid nid sid tid aid r1id r2id now pyver : String)
    (M : List JValue)
    (hM : ∀ x ∈ M, isRel x = true →
      relSrc x = some aid ∧ ∃ f, relTgt x = some f ∧ f ∈ nodeIds M) :
    noDanglingEdges
      ([bundleNode bid now, nistNode nid, sourceNode sid, toolNode tid now,
        actionNode aid tid now pyver]
       ++ [relNode r1id sid nid "maintainedBy" now,
           relNode r2id aid sid "inputSource" now]
       ++ M) = true := by
  have hids : nodeIds
      ([bundleNode bid now, nistNode nid, sourceNode sid, toolNode tid now,
        actionNode aid tid now pyver]
       ++ [relNode r1id sid nid "maintainedBy" now,
           relNode r2id aid sid "inputSource" now]
       ++ M)
      = bid :: nid :: sid :: tid :: aid :: r1id :: r2id :: nodeIds M := rfl
  unfold noDanglingEdges
  rw [List.all_eq_true]
  intro x hx
  rw [hids]
  rw [List.mem_append] at hx
  rcases hx with hx | hx
  · rw [List.mem_append] at hx
    rcases hx with hx | hx
    · fin_cases hx <;>
        simp [isRel_bundleNode, isRel_nistNode, isRel_sourceNode, isRel_toolNode,
          isRel_actionNode]
    · fin_cases hx <;>
        simp [isRel_relNode, relOk, relSrc_relNode, relTgt_relNode, memS]
  · cases hrel : isRel x with
    | false => simp [hrel]
    | true =>
      obtain ⟨hsrc, f, htgt, hf⟩ := hM x hx hrel
      simp [hrel, relOk, hsrc, htgt, memS, memS_of_mem hf]

/-- C8: on every unit, every Relationship node of the produced graph has
both its source id and its target id present among the ids of the graph's
node list — the graph has no dangling edges. -/
theorem C8_no_dangling (supply : Nat → String) (now pyver : String) (st : Registry)
    (u : UnitSrc) :
    noDanglingEdges (graphOf (processFile supply now pyver st u)) = true := by
  cases u with
  | ioError => rfl
  | badFormat => rfl
  | doc ms =>
    show noDanglingEdges ((processDoc supply now pyver st ms).1.graph) = true
    simp only [processDoc]
    exact noDangling_assembled _ _ _ _ _ _ _ now pyver _ (mediaLoop_rels _ _ _ _ _)

end NsrlUco


